import Mathlib

set_option autoImplicit false

/-!
Shallow embedding of `src/indicators.py` (a Telegram multi-bot presence
simulator).  A `BotInstance` owns a token, one chat action, a registry
`simulations : dict[chat_id, asyncio.Task]`, a `running` flag and a polling
`offset`.  Tasks are modelled explicitly: creating an `asyncio.Task`
appends a `SimTask` to an append-only `tasks` list (the task id is its
index), `Task.cancel()` requests cancellation, and awaiting a task runs it
to completion (its `finally` block included).
-/

namespace Indicators

/-- The eleven `ChatAction` variants listed in `ACTIONS` (lines 47-59). -/
inductive ChatAction where
  | typing | uploadPhoto | recordVideo | uploadVideo | recordVoice
  | uploadVoice | uploadDocument | chooseSticker | findLocation
  | recordVideoNote | uploadVideoNote
  deriving DecidableEq, Repr

/-- The `ACTIONS` list of line 47: the eleven presence actions, in source order. -/
def ACTIONS : List ChatAction :=
  [.typing, .uploadPhoto, .recordVideo, .uploadVideo, .recordVoice,
   .uploadVoice, .uploadDocument, .chooseSticker, .findLocation,
   .recordVideoNote, .uploadVideoNote]

/-- Lifecycle status of one `asyncio.Task` running `simulate_loop`:
`running` (live, no cancellation requested), `cancelRequested`
(`Task.cancel()` called, the task has not yet observed it), `finished`
(the coroutine has returned, its `finally` block included). -/
inductive TaskStatus where
  | running | cancelRequested | finished
  deriving DecidableEq, Repr

/-- One simulation task: the chat it serves and its lifecycle status. -/
structure SimTask where
  chatId : Int
  status : TaskStatus
  deriving DecidableEq, Repr

/-- Lookup in the `simulations` dict (`chat_id in self.simulations` /
`self.simulations[chat_id]`), modelled as an assoc list in insertion order. -/
def lookupChat (l : List (Int × Nat)) (c : Int) : Option Nat :=
  match l with
  | [] => none
  | p :: rest => if p.1 = c then some p.2 else lookupChat rest c

/-- Dict assignment `self.simulations[chat_id] = v`: replace in place if the
key exists, otherwise append (python dicts keep insertion order). -/
def setChat (l : List (Int × Nat)) (c : Int) (v : Nat) : List (Int × Nat) :=
  match l with
  | [] => [(c, v)]
  | p :: rest => if p.1 = c then (c, v) :: rest else p :: setChat rest c v

/-- Dict removal `self.simulations.pop(chat_id, None)`: drop the entry for
the key, keep every other entry in order; a no-op when the key is absent. -/
def removeChat (l : List (Int × Nat)) (c : Int) : List (Int × Nat) :=
  match l with
  | [] => []
  | p :: rest => if p.1 = c then removeChat rest c else p :: removeChat rest c

/-- State of one `BotInstance` (lines 128-138): token, assigned action, the
`simulations` registry (chat id to task id), the tasks created so far, the
`running` flag and the update `offset`. -/
structure BotState where
  token : String
  action : ChatAction
  simulations : List (Int × Nat)
  tasks : List SimTask
  running : Bool
  offset : Int
  deriving DecidableEq, Repr

/-- `Task.cancel()`: requests cooperative cancellation.  A finished task is
unaffected; otherwise the task's status becomes `cancelRequested`.  The call
never blocks and never waits for the task to terminate. -/
def cancelTask (tasks : List SimTask) (tid : Nat) : List SimTask :=
  match tasks[tid]? with
  | none => tasks
  | some t =>
      if t.status = .finished then tasks
      else tasks.set tid { t with status := .cancelRequested }

/-- `BotInstance.start_simulation` (lines 348-355): if the chat already has a
registered task, call `cancel()` on it (without awaiting it); then create a
fresh task running `simulate_loop(chat_id)` and store it in the registry. -/
def start_simulation (c : Int) (s : BotState) : BotState :=
  let s1 : BotState :=
    match lookupChat s.simulations c with
    | some tid => { s with tasks := cancelTask s.tasks tid }
    | none => s
  { s1 with
    tasks := s1.tasks ++ [⟨c, .running⟩],
    simulations := setChat s1.simulations c s1.tasks.length }

/-- `BotInstance.stop_simulation` (lines 357-363): if the chat has a
registered task, cancel it, remove the registry entry and return `True`;
otherwise return `False` and touch nothing. -/
def stop_simulation (c : Int) (s : BotState) : Bool × BotState :=
  match lookupChat s.simulations c with
  | some tid =>
      (true, { s with tasks := cancelTask s.tasks tid,
                      simulations := removeChat s.simulations c })
  | none => (false, s)

/-- Running a task to completion (awaiting it): the coroutine exits and the
`finally` clause of `simulate_loop` (lines 378-379) executes
`self.simulations.pop(chat_id, None)` — an unconditional removal of whatever
entry the registry currently holds under this task's own `chat_id`.  A task
that is already finished has already run its `finally`; awaiting it again
changes nothing. -/
def runTaskToCompletion (tid : Nat) (s : BotState) : BotState :=
  match s.tasks[tid]? with
  | none => s
  | some t =>
      if t.status = .finished then s
      else { s with tasks := s.tasks.set tid { t with status := .finished },
                    simulations := removeChat s.simulations t.chatId }

/-- `BotInstance.cleanup` (lines 413-427): set `running` to `False`, call
`cancel()` on every task in the registry, then `await asyncio.gather(...)`
over those same tasks — each awaited task runs to completion, its `finally`
block included, before `cleanup` returns. -/
def cleanup (s : BotState) : BotState :=
  let tids := s.simulations.map Prod.snd
  let s1 : BotState := { s with running := false,
                                tasks := tids.foldl cancelTask s.tasks }
  tids.foldl (fun st tid => runTaskToCompletion tid st) s1

/-- A convenient concrete fresh `BotInstance` state (as built by `__init__`,
lines 131-138: empty registry, `running` toggled on by `run`, offset 0). -/
def initState : BotState :=
  { token := "token", action := .typing, simulations := [], tasks := [],
    running := true, offset := 0 }

/-- Number of live (not yet finished) tasks whose loop serves chat `c` —
the quantity the at-most-one-task-per-chat invariant is about. -/
def liveTasksFor (c : Int) (s : BotState) : Nat :=
  (s.tasks.filter (fun t => t.chatId == c && !(t.status == .finished))).length

/-- Starting twice in succession for chat 42 from a fresh state. -/
def startTwice : BotState :=
  start_simulation 42 (start_simulation 42 initState)

/-! ### Update dispatch (`handle_update`, lines 155-183) -/

/-- Telegram chat types relevant to the dispatch guard (line 167). -/
inductive ChatType where
  | privateChat | group | supergroup | channel | other
  deriving DecidableEq, Repr

/-- The parts of a decoded message the dispatcher looks at: the chat type and
the optional text (`message.text` is `None` for non-text messages). -/
structure Message where
  chatType : ChatType
  text : Option String
  deriving DecidableEq, Repr

/-- A decoded update: `Update.de_json` may yield no message. -/
structure UpdateObj where
  updateId : Int
  message : Option Message
  deriving DecidableEq, Repr

/-- The four dispatch outcomes of `handle_update`. -/
inductive Dispatch where
  | startCmd | endCmd | pingCmd | ignored
  deriving DecidableEq, Repr

/-- Classification performed by `handle_update` (lines 155-183): return
(ignore) unless the update has a message, the message has truthy text
(`if not message.text`), and the chat type is private, group or supergroup;
then an if/elif chain on `message.text.startswith` picks the handler. -/
def handle_update_classify (u : UpdateObj) : Dispatch :=
  match u.message with
  | none => .ignored
  | some m =>
      match m.text with
      | none => .ignored
      | some t =>
          if t = "" then .ignored
          else if m.chatType = .privateChat ∨ m.chatType = .group ∨ m.chatType = .supergroup then
            if t.startsWith "/start" then .startCmd
            else if t.startsWith "/end" then .endCmd
            else if t.startsWith "/ping" then .pingCmd
            else .ignored
          else .ignored

/-- Modelled from the spec, section 4.2, for comparison with the code's
classifier: ignore unless chat type is in the allowed set and the message
has non-empty text; otherwise first match wins on the text's leading
command keyword. -/
def specClassify (u : UpdateObj) : Dispatch :=
  match u.message with
  | none => .ignored
  | some m =>
      let txt := m.text.getD ""
      if (m.chatType = .privateChat ∨ m.chatType = .group ∨ m.chatType = .supergroup)
          ∧ txt ≠ "" then
        if txt.startsWith "/start" then .startCmd
        else if txt.startsWith "/end" then .endCmd
        else if txt.startsWith "/ping" then .pingCmd
        else .ignored
      else .ignored

/-! ### Start command handler (`handle_start_command`, lines 185-267) -/

/-- Outcome of one outbound send call against the remote service. -/
inductive SendOutcome where
  | ok | err
  deriving DecidableEq, Repr

/-- Observable outcome of one `handle_start_command` invocation. -/
structure StartCmdResult where
  photoSent : Bool
  fallbackTried : Bool
  fallbackSent : Bool
  simulationStarted : Bool
  deriving DecidableEq, Repr

/-- `BotInstance.handle_start_command` (lines 185-267), parametrised by the
outcomes of its two outbound sends.  The try block sends the rich photo
welcome and then calls `start_simulation`; on exception, the except block
tries a plain-text fallback `send_message` followed by `start_simulation`,
and if that fallback send also raises, the inner except only logs — the
`start_simulation` call after the failed send is skipped. -/
def handle_start_command (photo fallback : SendOutcome) (c : Int) (s : BotState) :
    BotState × StartCmdResult :=
  match photo with
  | .ok => (start_simulation c s, ⟨true, false, false, true⟩)
  | .err =>
      match fallback with
      | .ok => (start_simulation c s, ⟨false, true, true, true⟩)
      | .err => (s, ⟨false, true, false, false⟩)

/-! ### Simulation loop iteration (`simulate_loop`, lines 365-379) -/

/-- What happens inside one iteration's `send_chat_action` + `sleep`:
no exception, a `NetworkError`/`BadRequest`, any other `Exception`, or an
`asyncio.CancelledError` injected by `Task.cancel()`. -/
inductive ExcClass where
  | noErr | networkOrBadRequest | otherException | cancelled
  deriving DecidableEq, Repr

/-- Result of one pass through the `while` body of `simulate_loop`: keep
looping after sleeping a number of seconds, leave because the `while`
condition is false, or leave through the outer `except CancelledError`. -/
inductive IterOutcome where
  | continueAfter (sleepSeconds : ℚ)
  | exitLoop
  | exitCancelled
  deriving DecidableEq, Repr

/-- One iteration of `simulate_loop` (lines 365-379).  The `while` guard
checks the shutdown flag and `self.running`; then `send_chat_action` and
`sleep(5.0)` run under `except (NetworkError, BadRequest): sleep(10.0)` and
`except Exception: sleep(5.0)`; `CancelledError` is a `BaseException`, passes
both handlers and reaches the outer `except asyncio.CancelledError: pass`. -/
def simulate_loop_iter (shutdownSet : Bool) (running : Bool) (exc : ExcClass) : IterOutcome :=
  if shutdownSet || !running then .exitLoop
  else
    match exc with
    | .noErr => .continueAfter 5
    | .networkOrBadRequest => .continueAfter 10
    | .otherException => .continueAfter 5
    | .cancelled => .exitCancelled

/-! ### Polling loop batch processing (`poll_updates`, lines 381-400) -/

/-- Events observable while processing one fetched batch: the offset cursor
is written, or an update is handed to `handle_update` (with the outcome of
the dispatch, which `handle_update` swallows either way). -/
inductive PollEvent where
  | setOffset (n : Int)
  | dispatch (uid : Int) (ok : Bool)
  deriving DecidableEq, Repr

/-- Offset cursor plus the trace of events so far. -/
structure PollState where
  offset : Int
  events : List PollEvent
  deriving DecidableEq, Repr

/-- Body of `for update in updates` (lines 391-393): first
`self.offset = update.update_id + 1`, then `await self.handle_update(...)`.
`handle_update` wraps its whole body in try/except (lines 156-183), so a
raising dispatch is logged and swallowed, never propagated to this loop. -/
def pollBatchStep (raises : Int → Bool) (st : PollState) (uid : Int) : PollState :=
  let st1 : PollState := { st with offset := uid + 1,
                                   events := st.events ++ [.setOffset (uid + 1)] }
  { st1 with events := st1.events ++ [.dispatch uid (!raises uid)] }

/-- Processing one fetched batch of update ids in arrival order. -/
def processBatch (raises : Int → Bool) (st : PollState) (batch : List Int) : PollState :=
  batch.foldl (pollBatchStep raises) st

/-! ### Fleet supervisor pairing (`main`, lines 511-546) -/

/-- The pairing computed in `main` (lines 530-533):
`tokens = BOT_TOKENS[:len(ACTIONS)]`, `actions = ACTIONS[:len(tokens)]`,
then `zip(tokens, actions)` — one worker thread per resulting pair. -/
def pairWorkers (botTokens : List String) : List (String × ChatAction) :=
  let tokens := botTokens.take ACTIONS.length
  let actions := ACTIONS.take tokens.length
  tokens.zip actions

/-- The startup stagger in `main` (lines 534-535): `if i > 0: time.sleep(2)`
before starting worker `i`. -/
def staggerDelaySeconds (i : Nat) : Nat := if 0 < i then 2 else 0

/-! ### Registry lemmas -/

theorem lookupChat_removeChat_self (l : List (Int × Nat)) (c : Int) :
    lookupChat (removeChat l c) c = none := by
  induction l with
  | nil => rfl
  | cons p rest ih =>
      by_cases h : p.1 = c
      · simpa [removeChat, h] using ih
      · simpa [removeChat, h, lookupChat] using ih

theorem lookupChat_removeChat_ne (l : List (Int × Nat)) (c c2 : Int) (h : c2 ≠ c) :
    lookupChat (removeChat l c) c2 = lookupChat l c2 := by
  induction l with
  | nil => rfl
  | cons p rest ih =>
      simp only [removeChat, lookupChat]
      by_cases hp : p.1 = c
      · rw [if_pos hp, ih]
        have hp2 : ¬p.1 = c2 := by rw [hp]; exact Ne.symm h
        rw [if_neg hp2]
      · rw [if_neg hp]
        simp only [lookupChat]
        rw [ih]

theorem lookupChat_setChat_self (l : List (Int × Nat)) (c : Int) (v : Nat) :
    lookupChat (setChat l c v) c = some v := by
  induction l with
  | nil => simp [setChat, lookupChat]
  | cons p rest ih =>
      simp only [setChat]
      by_cases h : p.1 = c
      · rw [if_pos h]
        simp [lookupChat]
      · rw [if_neg h]
        simp only [lookupChat]
        rw [if_neg h, ih]

theorem lookupChat_setChat_ne (l : List (Int × Nat)) (c c2 : Int) (v : Nat) (h : c2 ≠ c) :
    lookupChat (setChat l c v) c2 = lookupChat l c2 := by
  induction l with
  | nil => simp [setChat, lookupChat, Ne.symm h]
  | cons p rest ih =>
      simp only [setChat, lookupChat]
      by_cases hp : p.1 = c
      · rw [if_pos hp]
        simp only [lookupChat]
        have hp2 : ¬p.1 = c2 := by rw [hp]; exact Ne.symm h
        rw [if_neg (Ne.symm h), if_neg hp2]
      · rw [if_neg hp]
        simp only [lookupChat]
        rw [ih]

/-! ### Task-list lemmas -/

theorem cancelTask_length (ts : List SimTask) (tid : Nat) :
    (cancelTask ts tid).length = ts.length := by
  unfold cancelTask
  cases h : ts[tid]? with
  | none => rfl
  | some t =>
      by_cases hf : t.status = .finished
      · simp [hf]
      · simp [hf, List.length_set]

theorem cancelTask_getElem?_ne (ts : List SimTask) (tid tid2 : Nat) (h : tid2 ≠ tid) :
    (cancelTask ts tid)[tid2]? = ts[tid2]? := by
  unfold cancelTask
  cases hg : ts[tid]? with
  | none => rfl
  | some t =>
      by_cases hf : t.status = .finished
      · simp [hf]
      · simp [hf, List.getElem?_set_ne (fun he => h he.symm)]

theorem cancelTask_getElem?_self (ts : List SimTask) (tid : Nat) (t : SimTask)
    (hg : ts[tid]? = some t) (hf : t.status ≠ .finished) :
    (cancelTask ts tid)[tid]? = some { t with status := .cancelRequested } := by
  have hlt : tid < ts.length := (List.getElem?_eq_some.mp hg).1
  unfold cancelTask
  rw [hg]
  simp [hf, List.getElem?_set_self hlt]

theorem runTaskToCompletion_tasks_length (tid : Nat) (s : BotState) :
    (runTaskToCompletion tid s).tasks.length = s.tasks.length := by
  unfold runTaskToCompletion
  cases h : s.tasks[tid]? with
  | none => rfl
  | some t =>
      by_cases hf : t.status = .finished
      · simp [hf]
      · simp [hf, List.length_set]

theorem runTaskToCompletion_running (tid : Nat) (s : BotState) :
    (runTaskToCompletion tid s).running = s.running := by
  unfold runTaskToCompletion
  cases h : s.tasks[tid]? with
  | none => rfl
  | some t =>
      by_cases hf : t.status = .finished
      · simp [hf]
      · simp [hf]

theorem runTaskToCompletion_finished_self (tid : Nat) (s : BotState)
    (hlt : tid < s.tasks.length) :
    ((runTaskToCompletion tid s).tasks[tid]?).map SimTask.status = some .finished := by
  unfold runTaskToCompletion
  cases h : s.tasks[tid]? with
  | none =>
      rw [List.getElem?_eq_getElem hlt] at h
      exact absurd h (by simp)
  | some t =>
      by_cases hf : t.status = .finished
      · simp [hf, h]
      · simp [hf, List.getElem?_set_self hlt]

theorem runTaskToCompletion_preserves_finished (tid tid2 : Nat) (s : BotState)
    (hfin : (s.tasks[tid2]?).map SimTask.status = some .finished) :
    ((runTaskToCompletion tid s).tasks[tid2]?).map SimTask.status = some .finished := by
  unfold runTaskToCompletion
  cases h : s.tasks[tid]? with
  | none => exact hfin
  | some t =>
      by_cases hf : t.status = .finished
      · simpa [hf] using hfin
      · by_cases he : tid2 = tid
        · subst he
          rw [h] at hfin
          simp at hfin
          exact absurd hfin hf
        · simpa [hf, List.getElem?_set_ne (Ne.symm he)] using hfin

theorem foldRun_preserves_finished (l : List Nat) (s : BotState) (tid2 : Nat)
    (hfin : (s.tasks[tid2]?).map SimTask.status = some .finished) :
    ((l.foldl (fun st tid => runTaskToCompletion tid st) s).tasks[tid2]?).map SimTask.status
      = some .finished := by
  induction l generalizing s with
  | nil => exact hfin
  | cons a as ih =>
      rw [List.foldl_cons]
      exact ih _ (runTaskToCompletion_preserves_finished a tid2 s hfin)

theorem foldRun_running (l : List Nat) (s : BotState) :
    (l.foldl (fun st tid => runTaskToCompletion tid st) s).running = s.running := by
  induction l generalizing s with
  | nil => rfl
  | cons a as ih =>
      rw [List.foldl_cons, ih, runTaskToCompletion_running]

theorem foldRun_tasks_length (l : List Nat) (s : BotState) :
    (l.foldl (fun st tid => runTaskToCompletion tid st) s).tasks.length = s.tasks.length := by
  induction l generalizing s with
  | nil => rfl
  | cons a as ih =>
      rw [List.foldl_cons, ih, runTaskToCompletion_tasks_length]

theorem foldRun_finishes_all (l : List Nat) (s : BotState)
    (hb : ∀ tid ∈ l, tid < s.tasks.length) :
    ∀ tid ∈ l,
      ((l.foldl (fun st tid => runTaskToCompletion tid st) s).tasks[tid]?).map SimTask.status
        = some .finished := by
  induction l generalizing s with
  | nil => intro tid h; cases h
  | cons a as ih =>
      intro tid hmem
      rw [List.foldl_cons]
      rcases List.mem_cons.mp hmem with rfl | hmem2
      · exact foldRun_preserves_finished as (runTaskToCompletion tid s) tid
          (runTaskToCompletion_finished_self tid s (hb tid (List.mem_cons_self tid as)))
      · refine ih (runTaskToCompletion a s) ?_ tid hmem2
        intro t2 ht2
        rw [runTaskToCompletion_tasks_length]
        exact hb t2 (List.mem_cons_of_mem a ht2)

theorem foldCancel_length (l : List Nat) (ts : List SimTask) :
    (l.foldl cancelTask ts).length = ts.length := by
  induction l generalizing ts with
  | nil => rfl
  | cons a as ih =>
      rw [List.foldl_cons, ih, cancelTask_length]

theorem cleanup_eq (s : BotState) :
    cleanup s
      = (s.simulations.map Prod.snd).foldl (fun st tid => runTaskToCompletion tid st)
          { s with running := false,
                   tasks := (s.simulations.map Prod.snd).foldl cancelTask s.tasks } := rfl

theorem zip_getElem?_of_some {α β : Type} (l1 : List α) (l2 : List β) (i : Nat)
    (a : α) (b : β) (h1 : l1[i]? = some a) (h2 : l2[i]? = some b) :
    (l1.zip l2)[i]? = some (a, b) := by
  induction l1 generalizing l2 i with
  | nil => simp at h1
  | cons x xs ih =>
      cases l2 with
      | nil => simp at h2
      | cons y ys =>
          cases i with
          | zero =>
              simp only [List.getElem?_cons_zero, Option.some.injEq] at h1 h2
              simp [List.zip_cons_cons, h1, h2]
          | succ n =>
              simp only [List.getElem?_cons_succ] at h1 h2
              simpa [List.zip_cons_cons] using ih ys n h1 h2

theorem processBatch_events (raises : Int → Bool) (st : PollState) (batch : List Int) :
    (processBatch raises st batch).events
      = st.events
        ++ batch.flatMap (fun uid => [.setOffset (uid + 1), .dispatch uid (!raises uid)]) := by
  induction batch generalizing st with
  | nil => simp [processBatch]
  | cons a as ih =>
      simp only [processBatch, List.foldl_cons] at ih ⊢
      rw [ih]
      simp [pollBatchStep, List.append_assoc]

/-! ### Claims -/

/-- C1, as stated, is false on the code: `start_simulation` only calls
`Task.cancel()` on the old task and installs the replacement immediately,
without awaiting the old task's termination.  Starting twice in succession
for chat 42 from a fresh state leaves two live (unfinished) tasks for that
chat — the cancel-requested old one and the freshly created one — not
exactly one. -/
theorem claim_C1_counterexample :
    liveTasksFor 42 startTwice = 2 ∧ liveTasksFor 42 startTwice ≠ 1 := by
  decide

/-- C1 amended: when a start command arrives while a task is registered for
the chat, the old task gets a cancellation request (it is not awaited), and
the replacement is installed at once: afterwards the registry maps the chat
to the new task, the new task is live, and the old task is still live
(cancel-requested, not finished) — it terminates only later, cooperatively. -/
theorem claim_C1_amended (s : BotState) (c : Int) (tid : Nat) (t : SimTask)
    (hreg : lookupChat s.simulations c = some tid)
    (hg : s.tasks[tid]? = some t) (hf : t.status ≠ .finished) :
    lookupChat (start_simulation c s).simulations c = some s.tasks.length ∧
    (start_simulation c s).tasks[tid]? = some { t with status := .cancelRequested } ∧
    (start_simulation c s).tasks[s.tasks.length]? = some ⟨c, .running⟩ := by
  have hlt : tid < s.tasks.length := (List.getElem?_eq_some.mp hg).1
  unfold start_simulation
  simp only [hreg]
  refine ⟨?_, ?_, ?_⟩
  · rw [lookupChat_setChat_self, cancelTask_length]
  · rw [List.getElem?_append,
      if_pos (by rw [cancelTask_length]; exact hlt)]
    exact cancelTask_getElem?_self s.tasks tid t hg hf
  · rw [show s.tasks.length = (cancelTask s.tasks tid).length from
      (cancelTask_length s.tasks tid).symm]
    exact List.getElem?_concat_length _ _

/-- Witness for the amended C1: concretely, after the second start for chat
42 the registry points at task 1, task 0 is cancel-requested (still live),
and task 1 is running. -/
theorem claim_C1_amended_witness :
    lookupChat startTwice.simulations 42 = some 1 ∧
    startTwice.tasks[0]? = some ⟨42, .cancelRequested⟩ ∧
    startTwice.tasks[1]? = some ⟨42, .running⟩ := by
  have h := claim_C1_amended (start_simulation 42 initState) 42 0 ⟨42, .running⟩
    (by decide) (by decide) (by decide)
  exact ⟨h.1, h.2.1, h.2.2⟩

/-- C2, as stated, is false on the code: when the rich photo send fails and
the fallback plain-text send also fails, `handle_start_command`'s inner
except block only logs — the `start_simulation` call is skipped, so the
underlying state change does not happen.  At that concrete input the
simulation is not started and the state is untouched. -/
theorem claim_C2_counterexample :
    (handle_start_command .err .err 42 initState).2.simulationStarted = false ∧
    (handle_start_command .err .err 42 initState).1 = initState :=
  ⟨rfl, rfl⟩

/-- C2 amended: if the photo send fails the handler does degrade to the
fallback plain-text reply, and the simulation is started exactly when the
photo send succeeds or the fallback send succeeds; when both outbound sends
fail, the simulation is not started and the state is unchanged. -/
theorem claim_C2_amended (photo fallback : SendOutcome) (c : Int) (s : BotState) :
    (handle_start_command photo fallback c s).2.simulationStarted
        = (photo == .ok || fallback == .ok) ∧
    (handle_start_command photo fallback c s).2.fallbackTried = (photo == .err) ∧
    (handle_start_command photo fallback c s).1
        = (if photo == .ok || fallback == .ok then start_simulation c s else s) := by
  cases photo <;> cases fallback <;> simp [handle_start_command]

/-- C3: the polling loop writes `offset := updateId + 1` before dispatching
each update, in arrival order, and dispatch outcomes (even a raising
dispatch, swallowed inside `handle_update`) never affect the cursor: for the
batch `[5, 6, 7]` the final offset is 8 whatever the initial offset and
whichever dispatches raise, and in general the event trace interleaves each
`setOffset (uid + 1)` immediately before the corresponding `dispatch uid`. -/
theorem claim_C3 (raises : Int → Bool) (o : Int) :
    (processBatch raises ⟨o, []⟩ [5, 6, 7]).offset = 8 ∧
    (∀ (st : PollState) (batch : List Int),
        (processBatch raises st batch).events
          = st.events
            ++ batch.flatMap
                (fun uid => [.setOffset (uid + 1), .dispatch uid (!raises uid)])) := by
  refine ⟨rfl, ?_⟩
  intro st batch
  exact processBatch_events raises st batch

/-- C4: in one `simulate_loop` iteration that runs (no shutdown, still
running), a `NetworkError`/`BadRequest` only lengthens that iteration's
sleep to 10.0 seconds, any other exception is survived with the nominal
5.0-second sleep, a clean send sleeps the nominal 5.0 seconds, and the
iteration leaves the loop only when the shutdown flag is set, `running` is
false, or cancellation is delivered. -/
theorem claim_C4 (sh r : Bool) (exc : ExcClass) :
    (sh = false → r = true →
        simulate_loop_iter sh r .networkOrBadRequest = .continueAfter 10 ∧
        simulate_loop_iter sh r .otherException = .continueAfter 5 ∧
        simulate_loop_iter sh r .noErr = .continueAfter 5) ∧
    (simulate_loop_iter sh r exc = .exitLoop ∨ simulate_loop_iter sh r exc = .exitCancelled →
        sh = true ∨ r = false ∨ exc = .cancelled) := by
  constructor
  · rintro rfl rfl
    exact ⟨rfl, rfl, rfl⟩
  · intro hterm
    cases sh with
    | true => exact Or.inl rfl
    | false =>
        cases r with
        | false => exact Or.inr (Or.inl rfl)
        | true =>
            refine Or.inr (Or.inr ?_)
            cases exc with
            | cancelled => rfl
            | noErr => rcases hterm with h | h <;> exact absurd h (by decide)
            | networkOrBadRequest => rcases hterm with h | h <;> exact absurd h (by decide)
            | otherException => rcases hterm with h | h <;> exact absurd h (by decide)

/-- Witness for C4 at a concrete iteration: flags allow the loop to run, the
three survivable outcomes sleep as stated, and the cancelled iteration
exits only because cancellation was delivered. -/
theorem claim_C4_witness :
    (simulate_loop_iter false true .networkOrBadRequest = .continueAfter 10 ∧
     simulate_loop_iter false true .otherException = .continueAfter 5 ∧
     simulate_loop_iter false true .noErr = .continueAfter 5) ∧
    (false = true ∨ true = false ∨ ExcClass.cancelled = ExcClass.cancelled) :=
  ⟨(claim_C4 false true .cancelled).1 rfl rfl,
   (claim_C4 false true .cancelled).2 (Or.inr rfl)⟩

/-- C5: `stop_simulation` returns `true` exactly when the chat had a
registered task immediately prior; afterwards the registry holds no entry
for that chat in either case; and when no task was registered the call
returns `false` with the whole state untouched (no registry mutation, no
cancellation). -/
theorem claim_C5 (c : Int) (s : BotState) :
    ((stop_simulation c s).1 = true ↔ (lookupChat s.simulations c).isSome = true) ∧
    lookupChat (stop_simulation c s).2.simulations c = none ∧
    (lookupChat s.simulations c = none → stop_simulation c s = (false, s)) := by
  unfold stop_simulation
  cases h : lookupChat s.simulations c with
  | none => simp [h]
  | some tid => simp [h, lookupChat_removeChat_self]

/-- Witness for C5 on a chat with no task: the call reports `false`, the
registry stays empty for the chat, and nothing at all is mutated. -/
theorem claim_C5_witness :
    ((stop_simulation 42 initState).1 = true
        ↔ (lookupChat initState.simulations 42).isSome = true) ∧
    lookupChat (stop_simulation 42 initState).2.simulations 42 = none ∧
    stop_simulation 42 initState = (false, initState) := by
  have h := claim_C5 42 initState
  exact ⟨h.1, h.2.1, h.2.2 rfl⟩

/-- C6: when the worker leaves its polling loop, `cleanup` runs: it clears
`running`, calls `cancel()` on every task in the registry and then awaits
them (`asyncio.gather`), so on exit every task that was registered has run
to completion — cleanup is awaited, not fire-and-forget.  The hypothesis
says the registry only holds task ids of tasks that exist, which
`start_simulation` guarantees by construction. -/
theorem claim_C6 (s : BotState)
    (hwf : ∀ p ∈ s.simulations, p.2 < s.tasks.length) :
    (cleanup s).running = false ∧
    ∀ p ∈ s.simulations,
      ((cleanup s).tasks[p.2]?).map SimTask.status = some .finished := by
  rw [cleanup_eq]
  constructor
  · rw [foldRun_running]
  · intro p hp
    refine foldRun_finishes_all (s.simulations.map Prod.snd) _ ?_ p.2
      (List.mem_map_of_mem Prod.snd hp)
    intro tid htid
    show tid < ((s.simulations.map Prod.snd).foldl cancelTask s.tasks).length
    rw [foldCancel_length]
    rcases List.mem_map.mp htid with ⟨q, hq, rfl⟩
    exact hwf q hq

/-- Witness for C6: after two starts for chat 42 the registry holds task 1;
running `cleanup` leaves `running` false and task 1 finished. -/
theorem claim_C6_witness :
    (cleanup startTwice).running = false ∧
    ((cleanup startTwice).tasks[(1 : Nat)]?).map SimTask.status = some .finished := by
  have h := claim_C6 startTwice (by decide)
  exact ⟨h.1, h.2 (42, 1) (by decide)⟩

/-- C7: `handle_update` classifies exactly as the spec's dispatcher: ignore
unless the chat type is private, group or supergroup and the message has
non-empty text, then first match wins on the leading `/start`, `/end`,
`/ping` of the text; everything else is ignored. -/
theorem claim_C7 (u : UpdateObj) : handle_update_classify u = specClassify u := by
  rcases u with ⟨uid, msg⟩
  cases msg with
  | none => rfl
  | some m =>
      rcases m with ⟨ct, txt⟩
      cases txt with
      | none => simp [handle_update_classify, specClassify]
      | some t =>
          by_cases ht : t = ""
          · simp [handle_update_classify, specClassify, ht]
          · by_cases hct : ct = ChatType.privateChat ∨ ct = .group ∨ ct = .supergroup
            · simp [handle_update_classify, specClassify, ht, hct]
            · simp [handle_update_classify, specClassify, ht, hct]

/-- C8: the fleet supervisor pairs tokens with actions positionally —
the pairing has `min` length (excess tokens beyond the eleven actions are
silently unused, never an error), the i-th worker gets the i-th token and
the i-th action, and workers after the first are started after a
two-second stagger. -/
theorem claim_C8 (botTokens : List String) :
    (pairWorkers botTokens).length = min botTokens.length ACTIONS.length ∧
    (∀ (i : Nat) (tok : String) (act : ChatAction),
        botTokens[i]? = some tok → ACTIONS[i]? = some act →
        (pairWorkers botTokens)[i]? = some (tok, act)) ∧
    staggerDelaySeconds 0 = 0 ∧
    (∀ i : Nat, 0 < i → staggerDelaySeconds i = 2) := by
  refine ⟨?_, ?_, rfl, ?_⟩
  · simp only [pairWorkers, List.length_zip, List.length_take]
    omega
  · intro i tok act h1 h2
    have hi1 : i < botTokens.length := (List.getElem?_eq_some.mp h1).1
    have hi2 : i < ACTIONS.length := (List.getElem?_eq_some.mp h2).1
    apply zip_getElem?_of_some
    · rw [List.getElem?_take, if_pos hi2]
      exact h1
    · rw [List.getElem?_take, if_pos (by rw [List.length_take]; omega)]
      exact h2
  · intro i hi
    simp [staggerDelaySeconds, hi]

/-- Witness for C8: with two tokens, worker 1 is paired with the second
token and the second action, and is started after the two-second stagger. -/
theorem claim_C8_witness :
    (pairWorkers ["a", "b"]).length = min (["a", "b"] : List String).length ACTIONS.length ∧
    (pairWorkers ["a", "b"])[1]? = some ("b", ChatAction.uploadPhoto) ∧
    staggerDelaySeconds 0 = 0 ∧
    staggerDelaySeconds 3 = 2 := by
  have h := claim_C8 ["a", "b"]
  exact ⟨h.1, h.2.1 1 "b" .uploadPhoto rfl rfl, h.2.2.1, h.2.2.2 3 (by decide)⟩

/-- C9: when a simulation task's loop exits (any path), the `finally` of
`simulate_loop` unconditionally pops whatever registry entry currently sits
under the task's own chat id — even one that refers to a newer replacement
task — so afterwards the registry has no entry for that chat; entries of
other chats are untouched, and the exiting task is finished. -/
theorem claim_C9 (s : BotState) (tid : Nat) (t : SimTask)
    (hg : s.tasks[tid]? = some t) (hf : t.status ≠ .finished) :
    lookupChat (runTaskToCompletion tid s).simulations t.chatId = none ∧
    (∀ c2 : Int, c2 ≠ t.chatId →
        lookupChat (runTaskToCompletion tid s).simulations c2
          = lookupChat s.simulations c2) ∧
    ((runTaskToCompletion tid s).tasks[tid]?).map SimTask.status = some .finished := by
  have hlt : tid < s.tasks.length := (List.getElem?_eq_some.mp hg).1
  unfold runTaskToCompletion
  simp only [hg]
  rw [if_neg hf]
  refine ⟨?_, ?_, ?_⟩
  · simpa using lookupChat_removeChat_self s.simulations t.chatId
  · intro c2 hc2
    simpa using lookupChat_removeChat_ne s.simulations t.chatId c2 hc2
  · simp [List.getElem?_set_self hlt]

/-- Witness for C9, in the replacement scenario: after two starts for chat
42 the registry entry is the newer task 1, yet when the cancelled old task 0
exits, its `finally` removes that entry — the registry ends with no entry
for chat 42 while chat 7 (absent before) is unaffected. -/
theorem claim_C9_witness :
    lookupChat (runTaskToCompletion 0 startTwice).simulations 42 = none ∧
    lookupChat (runTaskToCompletion 0 startTwice).simulations 7
      = lookupChat startTwice.simulations 7 ∧
    ((runTaskToCompletion 0 startTwice).tasks[(0 : Nat)]?).map SimTask.status
      = some .finished := by
  have h := claim_C9 startTwice 0 ⟨42, .cancelRequested⟩ (by decide) (by decide)
  exact ⟨h.1, h.2.1 7 (by decide), h.2.2⟩

/-- C10: `stop_simulation` is total (it cannot raise: `Task.cancel()` and
`dict.pop(key, None)` do not throw) and only touches the registry entry of
the given chat and the task it registered: token, action, running flag and
offset are unchanged, every other chat's registry entry is unchanged, and
every task slot other than the one the chat pointed to is unchanged — in
the found and the not-found case alike. -/
theorem claim_C10 (c : Int) (s : BotState) :
    (stop_simulation c s).2.token = s.token ∧
    (stop_simulation c s).2.action = s.action ∧
    (stop_simulation c s).2.running = s.running ∧
    (stop_simulation c s).2.offset = s.offset ∧
    (∀ c2 : Int, c2 ≠ c →
        lookupChat (stop_simulation c s).2.simulations c2 = lookupChat s.simulations c2) ∧
    (∀ tid : Nat, lookupChat s.simulations c ≠ some tid →
        (stop_simulation c s).2.tasks[tid]? = s.tasks[tid]?) := by
  unfold stop_simulation
  cases h : lookupChat s.simulations c with
  | none => simp [h]
  | some tid0 =>
      simp only [h]
      refine ⟨trivial, trivial, trivial, trivial, ?_, ?_⟩
      · intro c2 hc2
        simpa using lookupChat_removeChat_ne s.simulations c c2 hc2
      · intro tid htid
        have hne : tid ≠ tid0 := fun he => htid (by rw [he])
        simpa using cancelTask_getElem?_ne s.tasks tid0 tid hne

/-- Witness for C10 at a concrete call: stopping chat 42 on the state with
an active task for 42 leaves token, action, running, offset, chat 7's
(absent) entry and the unrelated task slot 5 untouched. -/
theorem claim_C10_witness :
    (stop_simulation 42 startTwice).2.token = startTwice.token ∧
    (stop_simulation 42 startTwice).2.action = startTwice.action ∧
    (stop_simulation 42 startTwice).2.running = startTwice.running ∧
    (stop_simulation 42 startTwice).2.offset = startTwice.offset ∧
    lookupChat (stop_simulation 42 startTwice).2.simulations 7
      = lookupChat startTwice.simulations 7 ∧
    (stop_simulation 42 startTwice).2.tasks[(5 : Nat)]? = startTwice.tasks[(5 : Nat)]? := by
  have h := claim_C10 42 startTwice
  exact ⟨h.1, h.2.1, h.2.2.1, h.2.2.2.1, h.2.2.2.2.1 7 (by decide),
    h.2.2.2.2.2 5 (by decide)⟩

end Indicators
